import Mathlib

/-!
Verification of the Rotax Pro Jet jetting calculator.

The repository snapshot contains the README (with the mathematical model),
the client-side script static/js/app.js and two deployment scripts.  The
server-side calculation core (the Flask backend referenced by the README) is
not included in the snapshot, so the core is modelled from the design
specification; the client-side entry point calculateJetting is translated
directly from static/js/app.js.

All arithmetic is modelled over the real numbers (the specification asks for
double-precision floating point with no intermediate rounding; the real-number
model is the exact-arithmetic reading of those formulas).
-/

/-- Modelled from the spec: EnvironmentalConditions value type of the data
model (temperature in degrees Celsius, pressure in hectopascals, relative
humidity in percent, altitude in meters).  The backend defining it is not in
the snapshot. -/
structure EnvironmentalConditions where
  temperature : ℝ
  pressure : ℝ
  humidity : ℝ
  altitude : ℝ

/-- Modelled from the spec: the validation component accepts exactly the
documented physical ranges of the data model (temperature roughly [-20, 50],
pressure [850, 1100] hPa, humidity [0, 100] inclusive, altitude [0, 5000]).
The backend validation code is not in the snapshot. -/
def validConditions (e : EnvironmentalConditions) : Prop :=
  -20 ≤ e.temperature ∧ e.temperature ≤ 50 ∧
  850 ≤ e.pressure ∧ e.pressure ≤ 1100 ∧
  0 ≤ e.humidity ∧ e.humidity ≤ 100 ∧
  0 ≤ e.altitude ∧ e.altitude ≤ 5000

noncomputable instance decValidConditions (e : EnvironmentalConditions) :
    Decidable (validConditions e) := by
  unfold validConditions; infer_instance

/-- Gas constant for dry air, J/(kg*K), as documented in the README. -/
def Rd : ℝ := 287.05

/-- Modelled from the spec: saturation vapor pressure in pascals by the
standard Tetens empirical formula (the spec fixes only that a Tetens-style
formula of temperature is used; the usual constants are taken).  The backend
air-density code is not in the snapshot. -/
noncomputable def saturationVaporPressure (t : ℝ) : ℝ :=
  610.78 * Real.exp (17.27 * t / (t + 237.3))

/-- Modelled from the spec and the README formula: air density in kg/m3,
rho = (P / (Rd * T)) * (1 - 0.378 * (Pw / P)) with T in kelvin, P in pascals
and Pw the water vapor partial pressure.  The backend air-density code is not
in the snapshot. -/
noncomputable def airDensity (e : EnvironmentalConditions) : ℝ :=
  e.pressure * 100 / (Rd * (e.temperature + 273.15)) *
    (1 - 0.378 *
      (e.humidity / 100 * saturationVaporPressure e.temperature /
        (e.pressure * 100)))

/-- Selected needle designations (the spec describes needleType as a
profile-specific designation; modelled symbolically). -/
inductive NeedleType where
  | k22
  | k27
  | k98
deriving DecidableEq

/-- Modelled from the spec: per-engine constant data record carried by an
engine profile.  Deviation-band tables are ordered lists of
(threshold, value) pairs as the design notes describe. -/
structure EngineProfile where
  defaultReferenceConditions : EnvironmentalConditions
  defaultReferenceJet : ℤ
  jetSizeTable : List ℤ
  needlePositionBands : List (ℝ × ℤ)
  defaultNeedlePosition : ℤ
  floatHeightBase : ℝ
  floatHeightAdjustBands : List (ℝ × ℝ)
  needleTypeTable : List (ℝ × NeedleType)
  defaultNeedleType : NeedleType

/-- Modelled from the spec: a calculation request (current conditions,
optional reference conditions and jet defaulting to the profile values). -/
structure CalculationRequest where
  current : EnvironmentalConditions
  reference : Option EnvironmentalConditions
  engineProfile : EngineProfile
  referenceJet : Option ℤ

/-- Warning codes of the recommendation assembler (messages are presentation
text and are elided; the code identifies the warning). -/
inductive WarningCode where
  | envelope
  | clamp
  | inputEdge
deriving DecidableEq

/-- Discrete recommendations of a calculation result. -/
structure Recommendations where
  mainJet : ℤ
  needlePosition : ℤ
  floatHeight : ℝ
  needleType : NeedleType

/-- Intermediate calculation values reported with a result. -/
structure Calculations where
  currentAirDensity : ℝ
  referenceAirDensity : ℝ
  densityRatioVal : ℝ

/-- Modelled from the spec: a calculation result. -/
structure CalculationResult where
  recommendations : Recommendations
  calculations : Calculations
  warnings : List WarningCode

/-- Error taxonomy of the core: validation errors name the offending field
group, computation errors the violated internal invariant. -/
inductive FieldRef where
  | currentConditions
  | referenceConditions
deriving DecidableEq

/-- Internal invariant violations guarded defensively. -/
inductive Fault where
  | zeroReferenceDensity
  | emptyJetSizeTable
deriving DecidableEq

/-- Modelled from the spec: error type of the core calculate operation. -/
inductive JetError where
  | validation (field : FieldRef)
  | computation (fault : Fault)
deriving DecidableEq

/-- Modelled from the spec: continuous recommended jet size,
rawJet = referenceJet * q ^ (1/4) for a density quotient q. -/
noncomputable def rawJet (j q : ℝ) : ℝ := j * q ^ ((1 : ℝ) / 4)

/-- Modelled from the spec: the jet scaling stage.  It guards defensively
against a zero reference density before forming the density quotient, and
otherwise returns the quotient together with the continuous jet size. -/
noncomputable def jetScaling (J : ℤ) (curD refD : ℝ) :
    Except JetError (ℝ × ℝ) :=
  if refD = 0 then Except.error (JetError.computation Fault.zeroReferenceDensity)
  else Except.ok (curD / refD, rawJet (J : ℝ) (curD / refD))

/-- Modelled from the spec: fold of the jet size table keeping the entry
nearest to x, moving to the later (larger, for a sorted table) entry on an
exact tie, which realizes the documented tie-break toward the richer jet. -/
noncomputable def snapAux (x : ℝ) : List ℤ → ℤ → ℤ
  | [], best => best
  | c :: rest, best =>
      snapAux x rest (if |(c : ℝ) - x| ≤ |(best : ℝ) - x| then c else best)

/-- Last entry of a nonempty list given head and tail; for a sorted jet size
table this is its largest entry. -/
def lastEntry (b : ℤ) : List ℤ → ℤ
  | [] => b
  | c :: rest => lastEntry c rest

/-- Modelled from the spec: ordered-band lookup, first band whose threshold
is not exceeded wins, with a default when no band matches. -/
noncomputable def bandLookup {α : Type} : List (ℝ × α) → α → ℝ → α
  | [], dflt, _ => dflt
  | (t, v) :: rest, dflt, x => if x ≤ t then v else bandLookup rest dflt x

/-- Modelled from the spec: documented extrapolation-envelope threshold on
|densityRatio - 1| (the spec names a documented threshold without fixing its
value; 0.05 is taken). -/
def envelopeThreshold : ℝ := 0.05

/-- Modelled from the spec: advisory warnings of the recommendation
assembler: envelope warning when the density quotient deviates from 1 beyond
the threshold, clamp warning when the continuous jet size falls outside the
jet size table range, input-edge warning near the edges of the plausible
humidity and temperature ranges. -/
noncomputable def assembleWarnings (cur : EnvironmentalConditions)
    (q raw : ℝ) (t : ℤ) (ts : List ℤ) : List WarningCode :=
  (if envelopeThreshold < |q - 1| then [WarningCode.envelope] else []) ++
  (if raw < (t : ℝ) ∨ ((lastEntry t ts : ℤ) : ℝ) < raw
    then [WarningCode.clamp] else []) ++
  (if cur.humidity ≤ 5 ∨ 95 ≤ cur.humidity ∨
      cur.temperature ≤ -15 ∨ 45 ≤ cur.temperature
    then [WarningCode.inputEdge] else [])

/-- Modelled from the spec: the recommendation assembler.  It snaps the
continuous jet size to the jet size table, derives the discrete settings from
the profile band tables indexed by jet deviation and density deviation, and
attaches the advisory warnings. -/
noncomputable def assemble (p : EngineProfile) (cur : EnvironmentalConditions)
    (curD refD q raw : ℝ) : Except JetError CalculationResult :=
  match p.jetSizeTable with
  | [] => Except.error (JetError.computation Fault.emptyJetSizeTable)
  | t :: ts =>
      Except.ok
        { recommendations :=
            { mainJet := snapAux raw ts t
              needlePosition :=
                bandLookup p.needlePositionBands p.defaultNeedlePosition
                  ((snapAux raw ts t : ℝ) - (p.defaultReferenceJet : ℝ))
              floatHeight :=
                p.floatHeightBase +
                  bandLookup p.floatHeightAdjustBands 0
                    ((snapAux raw ts t : ℝ) - (p.defaultReferenceJet : ℝ))
              needleType :=
                bandLookup p.needleTypeTable p.defaultNeedleType |q - 1| }
          calculations :=
            { currentAirDensity := curD
              referenceAirDensity := refD
              densityRatioVal := q }
          warnings := assembleWarnings cur q raw t ts }

/-- Reference conditions actually used by a request (explicit reference, or
the profile default). -/
def resolveReference (R : CalculationRequest) : EnvironmentalConditions :=
  R.reference.getD R.engineProfile.defaultReferenceConditions

/-- Reference jet actually used by a request. -/
def resolveReferenceJet (R : CalculationRequest) : ℤ :=
  R.referenceJet.getD R.engineProfile.defaultReferenceJet

/-- Modelled from the spec: the single core operation
calculate : CalculationRequest to CalculationResult or error.  Validation
runs before any computation, the jet scaling stage guards the zero reference
density, and the assembler produces the discrete recommendations. -/
noncomputable def calculate (R : CalculationRequest) :
    Except JetError CalculationResult :=
  if validConditions R.current then
    if validConditions (resolveReference R) then
      match jetScaling (resolveReferenceJet R) (airDensity R.current)
          (airDensity (resolveReference R)) with
      | Except.error e => Except.error e
      | Except.ok (q, raw) =>
          assemble R.engineProfile R.current (airDensity R.current)
            (airDensity (resolveReference R)) q raw
    else Except.error (JetError.validation FieldRef.referenceConditions)
  else Except.error (JetError.validation FieldRef.currentConditions)

/-- The continuous jet size a request gives rise to inside calculate. -/
noncomputable def requestRawJet (R : CalculationRequest) : ℝ :=
  rawJet (resolveReferenceJet R : ℝ)
    (airDensity R.current / airDensity (resolveReference R))

/-- Engine selector value of the calculator form (an opaque select value in
the page; modelled symbolically). -/
inductive EngineTypeTag where
  | seniorMaxEvo
  | juniorMaxEvo
  | miniMax
deriving DecidableEq

/-- Body of the POST to /api/calculate built by calculateJetting in
static/js/app.js. -/
structure RequestBody where
  temperature : ℝ
  pressure : ℝ
  humidity : ℝ
  altitude : ℝ
  engineType : EngineTypeTag
  referenceJet : Option ℤ
  referenceConditions : Option EnvironmentalConditions

/-- The two alert messages calculateJetting can show before returning. -/
inductive AlertMessage where
  | invalidEnvironmentalParameters
  | invalidReferenceConditions
deriving DecidableEq

/-- Observable outcome of the client entry point: either an alert and an
immediate return, or a POST of the assembled request body. -/
inductive ClientAction where
  | alerted (msg : AlertMessage)
  | posted (body : RequestBody)

/-- State of the calculator form as read by calculateJetting: each numeric
field is the parseFloat result, none standing for NaN; the reference jet is
parsed only when nonempty. -/
structure CalculatorForm where
  temperature : Option ℝ
  pressure : Option ℝ
  humidity : Option ℝ
  altitude : Option ℝ
  engineType : EngineTypeTag
  referenceJet : Option ℤ
  useCustomReference : Bool
  refTemperature : Option ℝ
  refPressure : Option ℝ
  refHumidity : Option ℝ
  refAltitude : Option ℝ

/-- The calculateJetting entry point of static/js/app.js: parse the four
environmental fields, alert and return when any is NaN, optionally read the
custom reference conditions (alerting and returning when any of those is
NaN), then build the request body and POST it. -/
def calculateJetting (f : CalculatorForm) : ClientAction :=
  match f.temperature, f.pressure, f.humidity, f.altitude with
  | some t, some p, some hu, some a =>
      if f.useCustomReference then
        match f.refTemperature, f.refPressure, f.refHumidity, f.refAltitude with
        | some rt, some rp, some rh, some ra =>
            ClientAction.posted
              ⟨t, p, hu, a, f.engineType, f.referenceJet, some ⟨rt, rp, rh, ra⟩⟩
        | _, _, _, _ =>
            ClientAction.alerted AlertMessage.invalidReferenceConditions
      else
        ClientAction.posted ⟨t, p, hu, a, f.engineType, f.referenceJet, none⟩
  | _, _, _, _ =>
      ClientAction.alerted AlertMessage.invalidEnvironmentalParameters

lemma svp_pos (t : ℝ) : 0 < saturationVaporPressure t := by
  unfold saturationVaporPressure
  positivity

lemma svp_lt_bound (t : ℝ) (h1 : -20 ≤ t) (h2 : t ≤ 50) :
    saturationVaporPressure t < 33593 := by
  have hden : (0 : ℝ) < t + 237.3 := by linarith
  have hexp : 17.27 * t / (t + 237.3) ≤ 4 := by
    rw [div_le_iff hden]
    linarith
  have h4 : Real.exp (17.27 * t / (t + 237.3)) ≤ Real.exp 4 :=
    Real.exp_le_exp.mpr hexp
  have he : Real.exp 4 = Real.exp 1 ^ (4 : ℕ) := by
    rw [← Real.exp_nat_mul]
    norm_num
  have hlt : Real.exp 1 ^ (4 : ℕ) < 2.7182818286 ^ (4 : ℕ) := by
    gcongr
    exact Real.exp_one_lt_d9
  have hexp4 : Real.exp 4 < 55 := by
    rw [he]
    calc Real.exp 1 ^ (4 : ℕ) < 2.7182818286 ^ (4 : ℕ) := hlt
      _ < 55 := by norm_num
  unfold saturationVaporPressure
  calc 610.78 * Real.exp (17.27 * t / (t + 237.3))
      ≤ 610.78 * Real.exp 4 := by nlinarith [Real.exp_pos (17.27 * t / (t + 237.3))]
    _ < 610.78 * 55 := by nlinarith
    _ < 33593 := by norm_num

lemma airDensity_pos (e : EnvironmentalConditions) (h : validConditions e) :
    0 < airDensity e := by
  obtain ⟨ht1, ht2, hp1, hp2, hh1, hh2, _, _⟩ := h
  have hsvp := svp_pos e.temperature
  have hsvpU := svp_lt_bound e.temperature ht1 ht2
  have hP : (85000 : ℝ) ≤ e.pressure * 100 := by linarith
  have hT : (0 : ℝ) < e.temperature + 273.15 := by linarith
  have hRdT : 0 < Rd * (e.temperature + 273.15) := by
    apply mul_pos ?_ hT
    norm_num [Rd]
  unfold airDensity
  apply mul_pos
  · exact div_pos (by linarith) hRdT
  · have hw : e.humidity / 100 * saturationVaporPressure e.temperature ≤
        saturationVaporPressure e.temperature := by
      nlinarith
    have hq : e.humidity / 100 * saturationVaporPressure e.temperature /
        (e.pressure * 100) ≤ 33593 / 85000 := by
      apply div_le_div (by norm_num) (by linarith) (by norm_num) hP
    nlinarith

lemma airDensity_ne_zero (e : EnvironmentalConditions)
    (h : validConditions e) : airDensity e ≠ 0 :=
  (airDensity_pos e h).ne'

lemma airDensity_split (e : EnvironmentalConditions)
    (hp : 0 < e.pressure) (hT : 0 < e.temperature + 273.15) :
    airDensity e =
      e.pressure * 100 / (Rd * (e.temperature + 273.15)) -
        0.378 * (e.humidity / 100 * saturationVaporPressure e.temperature) /
          (Rd * (e.temperature + 273.15)) := by
  unfold airDensity
  have hRd : Rd ≠ 0 := by norm_num [Rd]
  have hp0 : e.pressure * 100 ≠ 0 := by positivity
  field_simp
  ring

lemma airDensity_lt_pressure (e1 e2 : EnvironmentalConditions)
    (ht : e2.temperature = e1.temperature) (hh : e2.humidity = e1.humidity)
    (hT : 0 < e1.temperature + 273.15) (hp1 : 0 < e1.pressure)
    (hp : e1.pressure < e2.pressure) :
    airDensity e1 < airDensity e2 := by
  have hp2 : 0 < e2.pressure := lt_trans hp1 hp
  rw [airDensity_split e1 hp1 hT, airDensity_split e2 hp2 (by rw [ht]; exact hT),
    ht, hh]
  have hRdT : 0 < Rd * (e1.temperature + 273.15) := by
    apply mul_pos ?_ hT
    norm_num [Rd]
  have hfrac : e1.pressure * 100 / (Rd * (e1.temperature + 273.15)) <
      e2.pressure * 100 / (Rd * (e1.temperature + 273.15)) := by
    rw [div_lt_div_right hRdT]
    linarith
  linarith

lemma snapAux_mem (x : ℝ) : ∀ (l : List ℤ) (b : ℤ), snapAux x l b ∈ b :: l := by
  intro l
  induction l with
  | nil => intro b; simp [snapAux]
  | cons c rest ih =>
      intro b
      simp only [snapAux]
      by_cases h : |(c : ℝ) - x| ≤ |(b : ℝ) - x|
      · rw [if_pos h]
        exact List.mem_cons_of_mem b (ih c)
      · rw [if_neg h]
        rcases List.mem_cons.mp (ih b) with h1 | h1
        · rw [h1]; exact List.mem_cons_self b (c :: rest)
        · exact List.mem_cons_of_mem b (List.mem_cons_of_mem c h1)

lemma snapAux_dist_le (x : ℝ) : ∀ (l : List ℤ) (b : ℤ), ∀ y ∈ b :: l,
    |(snapAux x l b : ℝ) - x| ≤ |(y : ℝ) - x| := by
  intro l
  induction l with
  | nil =>
      intro b y hy
      rcases List.mem_singleton.mp hy with rfl
      simp [snapAux]
  | cons c rest ih =>
      intro b y hy
      simp only [snapAux]
      by_cases h : |(c : ℝ) - x| ≤ |(b : ℝ) - x|
      · rw [if_pos h]
        have hbest := ih c c (List.mem_cons_self c rest)
        rcases List.mem_cons.mp hy with rfl | hy2
        · exact hbest.trans h
        rcases List.mem_cons.mp hy2 with rfl | hy3
        · exact hbest
        · exact ih c y (List.mem_cons_of_mem c hy3)
      · rw [if_neg h]
        push_neg at h
        have hbest := ih b b (List.mem_cons_self b rest)
        rcases List.mem_cons.mp hy with rfl | hy2
        · exact hbest
        rcases List.mem_cons.mp hy2 with rfl | hy3
        · exact hbest.trans h.le
        · exact ih b y (List.mem_cons_of_mem b hy3)

lemma snapAux_tie (x : ℝ) : ∀ (l : List ℤ) (b : ℤ),
    List.Sorted (· < ·) (b :: l) → ∀ y ∈ b :: l,
    |(y : ℝ) - x| = |(snapAux x l b : ℝ) - x| → y ≤ snapAux x l b := by
  intro l
  induction l with
  | nil =>
      intro b _ y hy _
      rcases List.mem_singleton.mp hy with rfl
      simp [snapAux]
  | cons c rest ih =>
      intro b hs y hy htie
      rw [List.sorted_cons] at hs
      obtain ⟨hblt, hs2⟩ := hs
      simp only [snapAux] at htie ⊢
      by_cases h : |(c : ℝ) - x| ≤ |(b : ℝ) - x|
      · rw [if_pos h] at htie ⊢
        rcases List.mem_cons.mp hy with rfl | hy2
        · exact (hblt _ (snapAux_mem x rest c)).le
        · exact ih c hs2 y hy2 htie
      · rw [if_neg h] at htie ⊢
        push_neg at h
        have hsort2 : List.Sorted (· < ·) (b :: rest) := by
          rw [List.sorted_cons]
          exact ⟨fun z hz => hblt z (List.mem_cons_of_mem c hz),
            (List.sorted_cons.mp hs2).2⟩
        rcases List.mem_cons.mp hy with rfl | hy2
        · exact ih y hsort2 y (List.mem_cons_self y rest) htie
        rcases List.mem_cons.mp hy2 with rfl | hy3
        · exfalso
          have hd := snapAux_dist_le x rest b b (List.mem_cons_self b rest)
          have hlt := hd.trans_lt h
          rw [← htie] at hlt
          exact lt_irrefl _ hlt
        · exact ih b hsort2 y (List.mem_cons_of_mem b hy3) htie

lemma snapAux_below (x : ℝ) : ∀ (l : List ℤ) (b : ℤ),
    List.Sorted (· < ·) (b :: l) → x ≤ (b : ℝ) → snapAux x l b = b := by
  intro l
  induction l with
  | nil => intro b _ _; simp [snapAux]
  | cons c rest ih =>
      intro b hs hx
      rw [List.sorted_cons] at hs
      obtain ⟨hblt, hs2⟩ := hs
      have hbc : (b : ℝ) < (c : ℝ) := by
        exact_mod_cast hblt c (List.mem_cons_self c rest)
      have hcond : ¬ (|(c : ℝ) - x| ≤ |(b : ℝ) - x|) := by
        rw [abs_of_nonneg (by linarith), abs_of_nonneg (by linarith)]
        push_neg
        linarith
      simp only [snapAux]
      rw [if_neg hcond]
      apply ih b ?_ hx
      rw [List.sorted_cons]
      exact ⟨fun z hz => hblt z (List.mem_cons_of_mem c hz),
        (List.sorted_cons.mp hs2).2⟩

lemma snapAux_above (x : ℝ) : ∀ (l : List ℤ) (b : ℤ),
    List.Sorted (· < ·) (b :: l) → (∀ y ∈ b :: l, (y : ℝ) ≤ x) →
    snapAux x l b = lastEntry b l := by
  intro l
  induction l with
  | nil => intro b _ _; simp [snapAux, lastEntry]
  | cons c rest ih =>
      intro b hs hall
      rw [List.sorted_cons] at hs
      obtain ⟨hblt, hs2⟩ := hs
      have hbc : (b : ℝ) < (c : ℝ) := by
        exact_mod_cast hblt c (List.mem_cons_self c rest)
      have hbx : (b : ℝ) ≤ x := hall b (List.mem_cons_self b (c :: rest))
      have hcx : (c : ℝ) ≤ x :=
        hall c (List.mem_cons_of_mem b (List.mem_cons_self c rest))
      have hcond : |(c : ℝ) - x| ≤ |(b : ℝ) - x| := by
        rw [abs_of_nonpos (by linarith), abs_of_nonpos (by linarith)]
        linarith
      simp only [snapAux, lastEntry]
      rw [if_pos hcond]
      exact ih c hs2 fun y hy => hall y (List.mem_cons_of_mem b hy)

lemma le_lastEntry : ∀ (l : List ℤ) (b : ℤ),
    List.Sorted (· < ·) (b :: l) → ∀ y ∈ b :: l, y ≤ lastEntry b l := by
  intro l
  induction l with
  | nil =>
      intro b _ y hy
      rcases List.mem_singleton.mp hy with rfl
      simp [lastEntry]
  | cons c rest ih =>
      intro b hs y hy
      rw [List.sorted_cons] at hs
      obtain ⟨hblt, hs2⟩ := hs
      simp only [lastEntry]
      rcases List.mem_cons.mp hy with rfl | hy2
      · exact le_trans (hblt c (List.mem_cons_self c rest)).le
          (ih c hs2 c (List.mem_cons_self c rest))
      · exact ih c hs2 y hy2

/-- Standard reference conditions used as sample data (20 C, 1013.25 hPa,
50 percent humidity, sea level). -/
def stdConditions : EnvironmentalConditions := ⟨20, 1013.25, 50, 0⟩

/-- Sample engine profile used as concrete witness data. -/
def sampleProfile : EngineProfile :=
  { defaultReferenceConditions := stdConditions
    defaultReferenceJet := 175
    jetSizeTable := [170, 175, 180]
    needlePositionBands := []
    defaultNeedlePosition := 4
    floatHeightBase := 5
    floatHeightAdjustBands := []
    needleTypeTable := []
    defaultNeedleType := NeedleType.k22 }

lemma calculate_identity_eval (cur : EnvironmentalConditions) (J : ℤ)
    (hv : validConditions cur) :
    calculate
        { current := cur, reference := some cur,
          engineProfile := sampleProfile, referenceJet := some J } =
      Except.ok
        { recommendations :=
            { mainJet := snapAux (J : ℝ) [175, 180] 170
              needlePosition := 4
              floatHeight := 5
              needleType := NeedleType.k22 }
          calculations :=
            { currentAirDensity := airDensity cur
              referenceAirDensity := airDensity cur
              densityRatioVal := 1 }
          warnings := assembleWarnings cur 1 (J : ℝ) 170 [175, 180] } := by
  have hne : airDensity cur ≠ 0 := airDensity_ne_zero cur hv
  unfold calculate resolveReference resolveReferenceJet
  simp only [Option.getD_some]
  rw [if_pos hv, if_pos hv]
  unfold jetScaling
  rw [if_neg hne]
  dsimp only
  rw [div_self hne]
  unfold rawJet
  rw [Real.one_rpow, mul_one]
  unfold assemble
  simp only [sampleProfile]
  simp only [bandLookup]
  rw [add_zero]

/-- C1: for every EnvironmentalConditions passing validation, the air
density function returns exactly (P / (Rd * T)) * (1 - 0.378 * (Pw / P))
with T the Celsius temperature plus 273.15, P the pressure in hPa times 100,
Pw = (humidity/100) times the Tetens saturation vapor pressure of the
temperature, and Rd = 287.05, with no rounding. -/
theorem airDensity_formula (e : EnvironmentalConditions)
    (h : validConditions e) :
    airDensity e =
      e.pressure * 100 / (287.05 * (e.temperature + 273.15)) *
        (1 - 0.378 * (e.humidity / 100 *
          (610.78 * Real.exp (17.27 * e.temperature / (e.temperature + 237.3))) /
            (e.pressure * 100))) := by
  unfold airDensity saturationVaporPressure Rd
  rfl

theorem airDensity_formula_witness :
    validConditions stdConditions ∧
    airDensity stdConditions =
      stdConditions.pressure * 100 /
          (287.05 * (stdConditions.temperature + 273.15)) *
        (1 - 0.378 * (stdConditions.humidity / 100 *
          (610.78 * Real.exp (17.27 * stdConditions.temperature /
            (stdConditions.temperature + 237.3))) /
              (stdConditions.pressure * 100))) :=
  ⟨by norm_num [validConditions, stdConditions],
    airDensity_formula stdConditions
      (by norm_num [validConditions, stdConditions])⟩

/-- C2: the jet scaling stage computes the density quotient
curD / refD and the continuous jet size referenceJet * quotient ^ (1/4),
and that continuous jet size exceeds the reference jet exactly when the
quotient exceeds 1 (for positive densities and a positive reference jet). -/
theorem jetScaling_fourth_root (J : ℤ) (curD refD : ℝ)
    (hJ : 0 < J) (hcd : 0 < curD) (hrd : 0 < refD) :
    jetScaling J curD refD =
      Except.ok (curD / refD, (J : ℝ) * (curD / refD) ^ ((1 : ℝ) / 4)) ∧
    ((J : ℝ) < (J : ℝ) * (curD / refD) ^ ((1 : ℝ) / 4) ↔ 1 < curD / refD) := by
  constructor
  · unfold jetScaling rawJet
    rw [if_neg hrd.ne']
  · have hq : 0 < curD / refD := div_pos hcd hrd
    have hJR : (0 : ℝ) < (J : ℝ) := by exact_mod_cast hJ
    rw [lt_mul_iff_one_lt_right hJR, Real.one_lt_rpow_iff_of_pos hq]
    constructor
    · rintro (⟨h1, _⟩ | ⟨_, h4⟩)
      · exact h1
      · norm_num at h4
    · intro h1
      exact Or.inl ⟨h1, by norm_num⟩

theorem jetScaling_fourth_root_witness :
    jetScaling 175 2 1 =
      Except.ok ((2 : ℝ) / 1, ((175 : ℤ) : ℝ) * ((2 : ℝ) / 1) ^ ((1 : ℝ) / 4)) ∧
    (((175 : ℤ) : ℝ) < ((175 : ℤ) : ℝ) * ((2 : ℝ) / 1) ^ ((1 : ℝ) / 4) ↔
      1 < (2 : ℝ) / 1) :=
  jetScaling_fourth_root 175 2 1 (by norm_num) (by norm_num) (by norm_num)

/-- C4: calculate is deterministic: its result is a pure function of the
request fields, with no hidden state or time dependence, so two requests
with identical fields give identical results. -/
theorem calculate_deterministic (R1 R2 : CalculationRequest)
    (hc : R1.current = R2.current) (hr : R1.reference = R2.reference)
    (hp : R1.engineProfile = R2.engineProfile)
    (hj : R1.referenceJet = R2.referenceJet) :
    calculate R1 = calculate R2 := by
  obtain ⟨c1, r1, p1, j1⟩ := R1
  obtain ⟨c2, r2, p2, j2⟩ := R2
  cases hc
  cases hr
  cases hp
  cases hj
  rfl

theorem calculate_deterministic_witness :
    calculate
        { current := stdConditions, reference := some stdConditions,
          engineProfile := sampleProfile, referenceJet := some 175 } =
      calculate
        { current := stdConditions, reference := some stdConditions,
          engineProfile := sampleProfile, referenceJet := some 175 } :=
  calculate_deterministic
    { current := stdConditions, reference := some stdConditions,
      engineProfile := sampleProfile, referenceJet := some 175 }
    { current := stdConditions, reference := some stdConditions,
      engineProfile := sampleProfile, referenceJet := some 175 }
    rfl rfl rfl rfl

/-- C5: for every EnvironmentalConditions passing validation the air density
is strictly positive (and finite, being a real number of the model), so the
density quotient of any two validated conditions is strictly positive. -/
theorem airDensity_positive (cur ref : EnvironmentalConditions)
    (hc : validConditions cur) (hr : validConditions ref) :
    0 < airDensity cur ∧ 0 < airDensity cur / airDensity ref :=
  ⟨airDensity_pos cur hc,
    div_pos (airDensity_pos cur hc) (airDensity_pos ref hr)⟩

theorem airDensity_positive_witness :
    0 < airDensity stdConditions ∧
    0 < airDensity stdConditions / airDensity stdConditions :=
  airDensity_positive stdConditions stdConditions
    (by norm_num [validConditions, stdConditions])
    (by norm_num [validConditions, stdConditions])

/-- C7: when the reference air density is exactly zero, the jet scaling
stage of calculate signals the zero-reference-density ComputationError
instead of forming the density quotient, so the division is never
executed. -/
theorem jetScaling_zero_reference (J : ℤ) (curD refD : ℝ) (h : refD = 0) :
    jetScaling J curD refD =
      Except.error (JetError.computation Fault.zeroReferenceDensity) := by
  subst h
  unfold jetScaling
  rw [if_pos rfl]

theorem jetScaling_zero_reference_witness :
    jetScaling 175 2 0 =
      Except.error (JetError.computation Fault.zeroReferenceDensity) :=
  jetScaling_zero_reference 175 2 0 rfl

/-- C9: holding the reference conditions, the reference jet and all other
current fields fixed, strictly increasing the current pressure strictly
increases the density quotient and therefore strictly increases the
continuous jet size. -/
theorem densityQuotient_pressure_mono (cur1 cur2 ref : EnvironmentalConditions)
    (J : ℤ) (h1 : validConditions cur1) (h2 : validConditions cur2)
    (hr : validConditions ref)
    (ht : cur2.temperature = cur1.temperature)
    (hh : cur2.humidity = cur1.humidity)
    (ha : cur2.altitude = cur1.altitude)
    (hp : cur1.pressure < cur2.pressure) (hJ : 0 < J) :
    airDensity cur1 / airDensity ref < airDensity cur2 / airDensity ref ∧
    rawJet (J : ℝ) (airDensity cur1 / airDensity ref) <
      rawJet (J : ℝ) (airDensity cur2 / airDensity ref) := by
  have h1c := h1
  obtain ⟨ht1, ht2, hpp1, hpp2, -, -, -, -⟩ := h1c
  have hd12 : airDensity cur1 < airDensity cur2 :=
    airDensity_lt_pressure cur1 cur2 ht hh (by linarith) (by linarith) hp
  have hrpos := airDensity_pos ref hr
  have hq : airDensity cur1 / airDensity ref < airDensity cur2 / airDensity ref := by
    rw [div_lt_div_right hrpos]
    exact hd12
  refine ⟨hq, ?_⟩
  unfold rawJet
  have h1pos : 0 < airDensity cur1 / airDensity ref :=
    div_pos (airDensity_pos cur1 h1) hrpos
  have hJR : (0 : ℝ) < (J : ℝ) := by exact_mod_cast hJ
  exact mul_lt_mul_of_pos_left
    (Real.rpow_lt_rpow h1pos.le hq (by norm_num)) hJR

/-- Current conditions equal to the standard ones except for a higher
pressure, used as witness data. -/
def highPressureConditions : EnvironmentalConditions := ⟨20, 1020, 50, 0⟩

theorem densityQuotient_pressure_mono_witness :
    airDensity stdConditions / airDensity stdConditions <
      airDensity highPressureConditions / airDensity stdConditions ∧
    rawJet ((175 : ℤ) : ℝ)
        (airDensity stdConditions / airDensity stdConditions) <
      rawJet ((175 : ℤ) : ℝ)
        (airDensity highPressureConditions / airDensity stdConditions) :=
  densityQuotient_pressure_mono stdConditions highPressureConditions
    stdConditions 175
    (by norm_num [validConditions, stdConditions])
    (by norm_num [validConditions, highPressureConditions])
    (by norm_num [validConditions, stdConditions])
    rfl rfl rfl
    (by norm_num [stdConditions, highPressureConditions])
    (by norm_num)

/-- C10: in the client entry point calculateJetting, if any of the
temperature, pressure, humidity or altitude fields parses to NaN, the
function alerts and returns immediately: no request body is built and no
POST to /api/calculate is issued (so a request is sent only when all four
fields are numeric). -/
theorem calculateJetting_nan_guard (f : CalculatorForm)
    (h : f.temperature = none ∨ f.pressure = none ∨
      f.humidity = none ∨ f.altitude = none) :
    calculateJetting f =
      ClientAction.alerted AlertMessage.invalidEnvironmentalParameters := by
  unfold calculateJetting
  rcases ht : f.temperature with _ | t <;>
    rcases hpp : f.pressure with _ | p <;>
      rcases hhh : f.humidity with _ | hu <;>
        rcases haa : f.altitude with _ | a <;>
          simp_all

/-- Form state with a NaN temperature field, used as witness data. -/
def nanForm : CalculatorForm :=
  ⟨none, some 1013.25, some 50, some 0, EngineTypeTag.seniorMaxEvo, none,
    false, none, none, none, none⟩

theorem calculateJetting_nan_guard_witness :
    calculateJetting nanForm =
      ClientAction.alerted AlertMessage.invalidEnvironmentalParameters :=
  calculateJetting_nan_guard nanForm (Or.inl rfl)

/-- C8: the recommendation assembler snaps the continuous jet size to the
nearest value of a sorted jet size table, and whenever it is exactly
equidistant from two entries the snapped jet is the larger one: the snapped
entry is in the table, its distance to the continuous jet size is minimal,
and any entry at equal distance is at most the snapped entry. -/
theorem snap_nearest_ties_up (x : ℝ) (t y : ℤ) (ts : List ℤ)
    (hs : List.Sorted (· < ·) (t :: ts)) (hy : y ∈ t :: ts) :
    snapAux x ts t ∈ t :: ts ∧
    |((snapAux x ts t : ℤ) : ℝ) - x| ≤ |((y : ℤ) : ℝ) - x| ∧
    (|((y : ℤ) : ℝ) - x| = |((snapAux x ts t : ℤ) : ℝ) - x| →
      y ≤ snapAux x ts t) :=
  ⟨snapAux_mem x ts t, snapAux_dist_le x ts t y hy,
    snapAux_tie x ts t hs y hy⟩

theorem snap_nearest_ties_up_witness :
    snapAux (172.5 : ℝ) [175, 180] 170 ∈ (170 : ℤ) :: [175, 180] ∧
    |((snapAux (172.5 : ℝ) [175, 180] 170 : ℤ) : ℝ) - 172.5| ≤
      |(((170 : ℤ) : ℤ) : ℝ) - 172.5| ∧
    (|(((170 : ℤ) : ℤ) : ℝ) - 172.5| =
        |((snapAux (172.5 : ℝ) [175, 180] 170 : ℤ) : ℝ) - 172.5| →
      (170 : ℤ) ≤ snapAux (172.5 : ℝ) [175, 180] 170) :=
  snap_nearest_ties_up 172.5 170 170 [175, 180] (by decide) (by decide)

/-- C3: on every request on which calculate succeeds with a sorted jet size
table, the returned mainJet is a member of the profile jet size table; when
the continuous jet size falls strictly below the smallest entry the smallest
entry is returned together with a clamp warning, and when it rises strictly
above the largest entry the largest entry is returned together with a clamp
warning: never an out-of-table value. -/
theorem calculate_mainJet_in_table (R : CalculationRequest)
    (res : CalculationResult) (t : ℤ) (ts : List ℤ)
    (htable : R.engineProfile.jetSizeTable = t :: ts)
    (hsorted : List.Sorted (· < ·) (t :: ts))
    (hok : calculate R = Except.ok res) :
    res.recommendations.mainJet ∈ R.engineProfile.jetSizeTable ∧
    (requestRawJet R < (t : ℝ) →
      res.recommendations.mainJet = t ∧ WarningCode.clamp ∈ res.warnings) ∧
    (((lastEntry t ts : ℤ) : ℝ) < requestRawJet R →
      res.recommendations.mainJet = lastEntry t ts ∧
        WarningCode.clamp ∈ res.warnings) := by
  unfold calculate at hok
  by_cases h1 : validConditions R.current
  · rw [if_pos h1] at hok
    by_cases h2 : validConditions (resolveReference R)
    · rw [if_pos h2] at hok
      unfold jetScaling at hok
      by_cases h3 : airDensity (resolveReference R) = 0
      · rw [if_pos h3] at hok
        exact absurd hok (by simp)
      · rw [if_neg h3] at hok
        dsimp only at hok
        unfold assemble at hok
        rw [htable] at hok
        dsimp only at hok
        rw [Except.ok.injEq] at hok
        subst hok
        unfold requestRawJet
        dsimp only
        refine ⟨?_, ?_, ?_⟩
        · rw [htable]
          exact snapAux_mem _ ts t
        · intro hlow
          refine ⟨snapAux_below _ ts t hsorted hlow.le, ?_⟩
          unfold assembleWarnings
          rw [if_pos (Or.inl hlow)]
          simp
        · intro hhigh
          have hall : ∀ y ∈ t :: ts,
              (y : ℝ) ≤ rawJet ((resolveReferenceJet R : ℤ) : ℝ)
                (airDensity R.current / airDensity (resolveReference R)) := by
            intro y hy
            have hle := le_lastEntry ts t hsorted y hy
            have hcast : ((y : ℤ) : ℝ) ≤ ((lastEntry t ts : ℤ) : ℝ) := by
              exact_mod_cast hle
            linarith
          refine ⟨snapAux_above _ ts t hsorted hall, ?_⟩
          unfold assembleWarnings
          rw [if_pos (Or.inr hhigh)]
          simp
    · rw [if_neg h2] at hok
      exact absurd hok (by simp)
  · rw [if_neg h1] at hok
    exact absurd hok (by simp)

/-- Request that drives the continuous jet size above the sample jet size
table (identity conditions, reference jet 200), used as witness data. -/
def clampReq : CalculationRequest :=
  ⟨stdConditions, some stdConditions, sampleProfile, some 200⟩

/-- The result calculate returns on clampReq. -/
noncomputable def clampRes : CalculationResult :=
  { recommendations :=
      { mainJet := snapAux ((200 : ℤ) : ℝ) [175, 180] 170
        needlePosition := 4
        floatHeight := 5
        needleType := NeedleType.k22 }
    calculations :=
      { currentAirDensity := airDensity stdConditions
        referenceAirDensity := airDensity stdConditions
        densityRatioVal := 1 }
    warnings := assembleWarnings stdConditions 1 ((200 : ℤ) : ℝ) 170 [175, 180] }

theorem calculate_mainJet_in_table_witness :
    clampRes.recommendations.mainJet ∈ clampReq.engineProfile.jetSizeTable ∧
    (requestRawJet clampReq < ((170 : ℤ) : ℝ) →
      clampRes.recommendations.mainJet = 170 ∧
        WarningCode.clamp ∈ clampRes.warnings) ∧
    (((lastEntry 170 [175, 180] : ℤ) : ℝ) < requestRawJet clampReq →
      clampRes.recommendations.mainJet = lastEntry 170 [175, 180] ∧
        WarningCode.clamp ∈ clampRes.warnings) :=
  calculate_mainJet_in_table clampReq clampRes 170 [175, 180] rfl
    (by decide)
    (by
      unfold clampReq clampRes
      exact calculate_identity_eval stdConditions 200
        (by norm_num [validConditions, stdConditions]))

/-- Environmental conditions differing from the standard ones only in the
humidity field, used as witness data. -/
def humCond (hu : ℝ) : EnvironmentalConditions := ⟨20, 1013.25, hu, 0⟩

/-- Identity request at a given humidity, used as witness data. -/
def humReq (hu : ℝ) : CalculationRequest :=
  ⟨humCond hu, some (humCond hu), sampleProfile, some 175⟩

/-- C6: validation accepts humidity 0 and humidity 100 (both requests
compute a result without error) and rejects humidity -1 and humidity 101
with a ValidationError before any computation: humidity must lie in the
closed interval from 0 to 100. -/
theorem humidity_boundary_behavior :
    (∃ res, calculate (humReq 0) = Except.ok res) ∧
    (∃ res, calculate (humReq 100) = Except.ok res) ∧
    calculate (humReq (-1)) =
      Except.error (JetError.validation FieldRef.currentConditions) ∧
    calculate (humReq 101) =
      Except.error (JetError.validation FieldRef.currentConditions) := by
  refine ⟨?_, ?_, ?_, ?_⟩
  · have h0 := calculate_identity_eval (humCond 0) 175
      (by norm_num [validConditions, humCond])
    exact ⟨_, h0⟩
  · have h100 := calculate_identity_eval (humCond 100) 175
      (by norm_num [validConditions, humCond])
    exact ⟨_, h100⟩
  · have hbad : ¬ validConditions (humCond (-1)) := by
      norm_num [validConditions, humCond]
    unfold calculate humReq
    rw [if_neg hbad]
  · have hbad : ¬ validConditions (humCond 101) := by
      norm_num [validConditions, humCond]
    unfold calculate humReq
    rw [if_neg hbad]
